import Mathlib

/-!
Verification of the SchoolConnect quiz attempt lifecycle and grading engine.

This file is a shallow embedding of the quiz-related route handlers and
Mongoose model statics of the repository:

* `src/unnamed/part_003` — `POST`/`PATCH /api/quiz-attempts/[id]/submit`
* `src/app/api/quizzes/[id]/attempt/route.ts` — `POST` (start attempt)
* `src/unnamed/part_001` — `DELETE /api/quizzes/[id]`
* `src/lib/models/QuizAttempt.ts` — schema, pre-save hook, statics
* `src/lib/models/Quiz.ts` — schema, pre-save hook, `updateAnalytics`

JavaScript numbers appearing in this logic are integers in every reachable
state (question points are integral, scores are sums of points, percentages
are produced by `Math.round`), so they are modelled as `Nat`/`Int`; the
analytics averages, which carry two decimal places, are modelled as `ℚ`.
All arithmetic performed by the code on these values is exact in binary
floating point for the magnitudes involved.
-/

namespace SchoolConnect

/-! ### JavaScript value model

Quiz answers are dynamically typed in the source (`answer: Schema.Types.Mixed`,
`string | number | boolean`).  `jsStrictEq` models the `===` operator used by
the grader: equal only when the runtime types agree and the payloads agree.
`jsToString` models the `String(x)` coercion applied by the short-answer
branch. -/

inductive JsValue where
  | num (n : Int)
  | bool (b : Bool)
  | str (s : String)
deriving DecidableEq

def jsStrictEq : JsValue → JsValue → Bool
  | .num a, .num b => a == b
  | .bool a, .bool b => a == b
  | .str a, .str b => a == b
  | _, _ => false

def jsToString : JsValue → String
  | .num n => toString n
  | .bool true => "true"
  | .bool false => "false"
  | .str s => s

/-! ### String helpers

`trimChars` models `String.prototype.trim` (strip leading and trailing
whitespace), `lowerChars` models `String.prototype.toLowerCase` (the inputs in
this codebase are ASCII), and `hasSub` models `String.prototype.includes`
(contiguous substring; the empty string is a substring of everything, exactly
as in JavaScript). -/

def trimChars (l : List Char) : List Char :=
  ((l.dropWhile Char.isWhitespace).reverse.dropWhile Char.isWhitespace).reverse

def lowerChars (l : List Char) : List Char :=
  l.map Char.toLower

/-- `String(x).trim().toLowerCase()` as performed by the short-answer grader,
as a character list. -/
def normChars (s : String) : List Char :=
  lowerChars (trimChars s.data)

def hasSub : List Char → List Char → Bool
  | [], p => p.isEmpty
  | c :: t, p => p.isPrefixOf (c :: t) || hasSub t p

/-! ### Rounding

`qRound` is `Math.round` on the exact rational value: round to nearest,
halves toward positive infinity, i.e. `⌊x + 1/2⌋`.

`jsRound100` is `Math.round((num / den) * 100)` for natural `num` and positive
natural `den`, expressed with natural division:
`⌊100·num/den + 1/2⌋ = (200·num + den) / (2·den)`.
`jsRound100_eq_qRound` proves the two presentations agree. -/

def qRound (x : ℚ) : ℤ := (x + 1/2).floor

theorem qRound_eq_intFloor (x : ℚ) : qRound x = ⌊x + 1/2⌋ := by
  rw [qRound, Rat.floor_def, Rat.floor_def']

def jsRound100 (num den : ℕ) : ℕ := (200 * num + den) / (2 * den)

theorem jsRound100_eq_qRound (num den : ℕ) (hden : 0 < den) :
    (jsRound100 num den : ℤ) = qRound ((num : ℚ) * 100 / den) := by
  have hden' : (den : ℚ) ≠ 0 := Nat.cast_ne_zero.mpr hden.ne'
  rw [qRound_eq_intFloor]
  unfold jsRound100
  have hx : (num : ℚ) * 100 / den + 1/2 =
      ((200 * num + den : ℕ) : ℚ) / ((2 * den : ℕ) : ℚ) := by
    push_cast
    field_simp
    ring
  rw [hx, Rat.floor_natCast_div_natCast]
  push_cast [Int.ofNat_tdiv]
  ring

/-! ### Data model

Translated from `src/lib/models/Quiz.ts`, `src/lib/models/QuizAttempt.ts` and
`src/lib/models/User.ts`.  Object ids and question ids are modelled as
strings; dates as natural-number timestamps (epoch milliseconds). -/

inductive Role where
  | teacher
  | student
  | parent
deriving DecidableEq

structure User where
  id : String
  role : Role
deriving DecidableEq

inductive QuestionType where
  | multiple_choice
  | true_false
  | short_answer
deriving DecidableEq

/-- A quiz question (`QuestionSchema` in `Quiz.ts`). -/
structure Question where
  id : String
  qtype : QuestionType
  question : String
  options : List String
  correctAnswer : JsValue
  points : ℕ
deriving DecidableEq

inductive QuizStatus where
  | draft
  | published
  | archived
deriving DecidableEq

structure QuizSettings where
  timeLimit : Option ℕ
  maxAttempts : ℕ
  shuffleQuestions : Bool
  shuffleOptions : Bool
  showResultsImmediately : Bool
  allowReview : Bool
  passingScore : Option ℕ
deriving DecidableEq

/-- The per-quiz running analytics aggregates (`Quiz.ts`, `analytics`
subdocument).  The averages and the completion rate are stored with two
decimal places, hence `ℚ`. -/
structure Analytics where
  totalAttempts : ℕ
  averageScore : ℚ
  completionRate : ℚ
  averageTimeMinutes : ℚ
deriving DecidableEq

structure Quiz where
  id : String
  author : String
  title : String
  questions : List Question
  status : QuizStatus
  settings : QuizSettings
  totalPoints : ℕ
  dueDate : Option ℕ
  publishedAt : Option ℕ
  analytics : Analytics
deriving DecidableEq

inductive AttemptStatus where
  | in_progress
  | completed
  | abandoned
  | time_expired
deriving DecidableEq

/-- `QuestionResponseSchema` in `QuizAttempt.ts`. -/
structure QuestionResponse where
  questionId : String
  answer : JsValue
  isCorrect : Bool
  pointsEarned : ℕ
  timeSpentSeconds : ℕ
  attempts : ℕ
deriving DecidableEq

/-- `QuizAttemptSchema` in `QuizAttempt.ts`. -/
structure QuizAttempt where
  id : String
  quiz : String
  student : String
  attemptNumber : ℕ
  status : AttemptStatus
  responses : List QuestionResponse
  score : ℕ
  maxScore : ℕ
  percentage : ℕ
  timeSpentMinutes : ℕ
  startedAt : ℕ
  completedAt : Option ℕ
  submittedAt : Option ℕ
deriving DecidableEq

/-! ### Mongoose persistence model for `QuizAttempt`

`validAttempt` collects the schema validators of `QuizAttemptSchema` that are
not automatic in the `ℕ` model (the `min: 0` bounds hold for every `ℕ`):
`attemptNumber` has `min: 1`, `maxScore` has `min: 1`, `percentage` has
`max: 100`, and each embedded response's `attempts` has `min: 1`.

`attemptPreSave` is the `QuizAttemptSchema.pre('save')` hook: recompute
`percentage = Math.round((score / maxScore) * 100)` when `maxScore > 0`, and
set `completedAt` on the first save with `status = 'completed'`.

`saveAttempt` models `document.save()`: Mongoose runs validation (a built-in
hook of the `validate` phase, which precedes the `save` phase) on the state
assigned by the caller, then runs the `pre('save')` hook, then persists.
`none` models a thrown `ValidationError`. -/

def validResponseDoc (r : QuestionResponse) : Bool :=
  1 ≤ r.attempts

def validAttempt (a : QuizAttempt) : Bool :=
  1 ≤ a.attemptNumber && 1 ≤ a.maxScore && a.percentage ≤ 100 &&
    a.responses.all validResponseDoc

def attemptPreSave (a : QuizAttempt) (now : ℕ) : QuizAttempt :=
  let a := if 0 < a.maxScore then { a with percentage := jsRound100 a.score a.maxScore } else a
  if a.status = .completed ∧ a.completedAt = none then { a with completedAt := some now } else a

def saveAttempt (a : QuizAttempt) (now : ℕ) : Option QuizAttempt :=
  if validAttempt a then some (attemptPreSave a now) else none

/-! ### Response grader

Translated from the grading loop of `POST /api/quiz-attempts/[id]/submit`
(`src/unnamed/part_003`, lines 377–421).  The route iterates over the
client-submitted `responses` array; for each submitted response it looks up
the question by id.  Unmatched responses are spread through with
`isCorrect: false, pointsEarned: 0` (keeping the client's `timeSpentSeconds`
and the schema default `attempts: 1`).  Matched responses are graded by
question type: `===` for `multiple_choice` and `true_false`,
trim/lower-case/substring comparison of `String(...)` coercions for
`short_answer`. -/

structure SubmittedResponse where
  questionId : String
  answer : JsValue
  timeSpentSeconds : ℕ
deriving DecidableEq

def shortAnswerCorrect (studentAnswer correctAnswer : String) : Bool :=
  let s := normChars studentAnswer
  let c := normChars correctAnswer
  s == c || hasSub s c || hasSub c s

def gradeOne (questions : List Question) (resp : SubmittedResponse) : QuestionResponse :=
  match questions.find? (fun q => decide (q.id = resp.questionId)) with
  | none =>
      { questionId := resp.questionId, answer := resp.answer, isCorrect := false,
        pointsEarned := 0, timeSpentSeconds := resp.timeSpentSeconds, attempts := 1 }
  | some q =>
      let isCorrect :=
        match q.qtype with
        | .multiple_choice => jsStrictEq resp.answer q.correctAnswer
        | .true_false => jsStrictEq resp.answer q.correctAnswer
        | .short_answer =>
            shortAnswerCorrect (jsToString resp.answer) (jsToString q.correctAnswer)
      { questionId := resp.questionId, answer := resp.answer, isCorrect := isCorrect,
        pointsEarned := if isCorrect then q.points else 0,
        timeSpentSeconds := resp.timeSpentSeconds, attempts := 1 }

def gradeResponses (questions : List Question) (responses : List SubmittedResponse) :
    List QuestionResponse :=
  responses.map (gradeOne questions)

/-- `totalScore` accumulates `pointsEarned` over the graded list, as the
`totalScore += pointsEarned` accumulator in the route. -/
def totalScore (graded : List QuestionResponse) : ℕ :=
  (graded.map (·.pointsEarned)).sum

/-! ### Quiz analytics

`updateAnalytics` is the static `QuizSchema.statics.updateAnalytics`
(`Quiz.ts`, lines 287–308): incremental-mean update of the running averages,
each result rounded to two decimal places via `Math.round(x * 100) / 100`. -/

def round2 (x : ℚ) : ℚ := (qRound (x * 100) : ℚ) / 100

def updateAnalytics (a : Analytics) (score : ℚ) (timeMinutes : ℚ) (completed : Bool) :
    Analytics :=
  let newTotalAttempts : ℕ := a.totalAttempts + 1
  let newAverageScore : ℚ := (a.averageScore * a.totalAttempts + score) / newTotalAttempts
  let newAverageTime : ℚ := (a.averageTimeMinutes * a.totalAttempts + timeMinutes) / newTotalAttempts
  let completedAttempts : ℤ :=
    qRound (a.completionRate * a.totalAttempts / 100) + (if completed then 1 else 0)
  let newCompletionRate : ℚ := ((completedAttempts : ℚ) / newTotalAttempts) * 100
  { totalAttempts := newTotalAttempts,
    averageScore := round2 newAverageScore,
    averageTimeMinutes := round2 newAverageTime,
    completionRate := round2 newCompletionRate }

/-! ### Submit route

`submitPOST` models `POST /api/quiz-attempts/[id]/submit`
(`src/unnamed/part_003`, lines 325–468) from the point where authentication,
ownership and attempt lookup have succeeded (the claims under study are about
states beyond those guards; the guards only produce early 401/403/404
errors).  `analyticsOk` models whether the awaited `Quiz.updateAnalytics`
call (which has no internal error handling) succeeds; when it throws, the
route's catch-all converts the error into a 500 response — after
`attempt.save()` has already persisted the graded attempt. -/

structure SubmitResult where
  httpStatus : ℕ
  errorMsg : Option String
  /-- The attempt record as stored in the database after the request. -/
  persisted : QuizAttempt
  /-- The quiz record (analytics included) after the request. -/
  quizAfter : Quiz
deriving DecidableEq

/-- The field assignments the submit route performs on the attempt document
before calling `attempt.save()` (`attempt.responses = gradedResponses` through
`attempt.submittedAt = new Date()`).  The percentage assigned here is computed
from the *quiz's current* `totalPoints`
(`quiz.totalPoints > 0 ? Math.round((totalScore / quiz.totalPoints) * 100) : 0`);
the pre-save hook then recomputes it from the attempt's snapshot `maxScore`. -/
def submitUpdate (quiz : Quiz) (attempt : QuizAttempt) (responses : List SubmittedResponse)
    (timeSpentMinutes : ℕ) (now : ℕ) : QuizAttempt :=
  let graded := gradeResponses quiz.questions responses
  let score := totalScore graded
  { attempt with
      responses := graded, score := score,
      percentage := if 0 < quiz.totalPoints then jsRound100 score quiz.totalPoints else 0,
      timeSpentMinutes := timeSpentMinutes, status := .completed,
      completedAt := some now, submittedAt := some now }

def submitPOST (quiz : Quiz) (attempt : QuizAttempt) (responses : List SubmittedResponse)
    (timeSpentMinutes : ℕ) (now : ℕ) (analyticsOk : Bool) : SubmitResult :=
  if attempt.status ≠ .in_progress then
    { httpStatus := 400, errorMsg := some "Quiz attempt is not in progress",
      persisted := attempt, quizAfter := quiz }
  else
    let updated := submitUpdate quiz attempt responses timeSpentMinutes now
    match saveAttempt updated now with
    | none =>
        { httpStatus := 500, errorMsg := some "Failed to submit quiz attempt",
          persisted := attempt, quizAfter := quiz }
    | some saved =>
        if analyticsOk then
          { httpStatus := 200, errorMsg := none, persisted := saved,
            quizAfter := { quiz with
              analytics := updateAnalytics quiz.analytics (updated.percentage : ℚ)
                (timeSpentMinutes : ℚ) true } }
        else
          { httpStatus := 500, errorMsg := some "Failed to submit quiz attempt",
            persisted := saved, quizAfter := quiz }

/-! ### Start-attempt route

`QuizAttempt` statics from `QuizAttempt.ts`: `getStudentAttemptCount` counts
the student's attempts on the quiz whose status is in
`['completed', 'abandoned', 'time_expired']`; the route's `findOne` for an
in-progress attempt is `findInProgress`.  The attempts database is a list of
attempt records. -/

def isTerminal : AttemptStatus → Bool
  | .completed => true
  | .abandoned => true
  | .time_expired => true
  | .in_progress => false

def getStudentAttemptCount (db : List QuizAttempt) (student quiz : String) : ℕ :=
  (db.filter (fun a =>
    decide (a.student = student) && decide (a.quiz = quiz) && isTerminal a.status)).length

def findInProgress (db : List QuizAttempt) (student quiz : String) : Option QuizAttempt :=
  db.find? (fun a =>
    decide (a.student = student) && decide (a.quiz = quiz) && decide (a.status = .in_progress))

/-- The error string of the attempt-limit branch:
``Maximum ${quiz.settings.maxAttempts} attempts reached``. -/
def attemptLimitMsg (maxAttempts : ℕ) : String :=
  "Maximum " ++ toString maxAttempts ++ " attempts reached"

inductive StartOutcome where
  /-- 200 with the existing in-progress attempt. -/
  | resumed (a : QuizAttempt)
  /-- 201 with the freshly created attempt. -/
  | created (a : QuizAttempt)
  /-- Any error response. -/
  | failed (httpStatus : ℕ) (msg : String)
deriving DecidableEq

/-- `POST /api/quizzes/[id]/attempt` (`route.ts`, lines 9–111), from the point
where the token was verified and the user and quiz were looked up.  Returns
the response outcome together with the attempts database after the request.
`newId` stands for the object id Mongo assigns to a created record. -/
def startPOST (user : User) (quiz : Quiz) (db : List QuizAttempt) (now : ℕ)
    (newId : String) : StartOutcome × List QuizAttempt :=
  if user.role ≠ .student then
    (.failed 403 "Only students can take quizzes", db)
  else if quiz.status ≠ .published then
    (.failed 403 "Quiz is not available", db)
  else if (match quiz.dueDate with | some d => decide (d < now) | none => false) then
    (.failed 403 "Quiz deadline has passed", db)
  else
    let completedAttempts := getStudentAttemptCount db user.id quiz.id
    if quiz.settings.maxAttempts ≤ completedAttempts then
      (.failed 403 (attemptLimitMsg quiz.settings.maxAttempts), db)
    else
      match findInProgress db user.id quiz.id with
      | some existing => (.resumed existing, db)
      | none =>
          let a : QuizAttempt :=
            { id := newId, quiz := quiz.id, student := user.id,
              attemptNumber := completedAttempts + 1, status := .in_progress,
              responses := [], score := 0, maxScore := quiz.totalPoints,
              percentage := 0, timeSpentMinutes := 0, startedAt := now,
              completedAt := none, submittedAt := none }
          match saveAttempt a now with
          | none => (.failed 500 "Failed to start quiz attempt", db)
          | some saved => (.created saved, db ++ [saved])

/-! ### On-demand statistics

`getQuizStatistics` (`QuizAttempt.ts`, lines 197–243) scans the completed
attempts of a quiz.  `passingScore` is `quiz?.settings?.passingScore || 70`:
the JavaScript `||` falls back to 70 when the setting is absent *or zero*. -/

def listMax (l : List ℕ) : ℕ :=
  match l with
  | [] => 0
  | h :: t => t.foldl max h

def listMin (l : List ℕ) : ℕ :=
  match l with
  | [] => 0
  | h :: t => t.foldl min h

def passingScoreOrDefault (ps : Option ℕ) : ℕ :=
  match ps with
  | some p => if p = 0 then 70 else p
  | none => 70

structure QuizStatistics where
  totalAttempts : ℕ
  uniqueStudents : ℕ
  averageScore : ℤ
  highestScore : ℕ
  lowestScore : ℕ
  passRate : ℤ
  averageTimeMinutes : ℤ
deriving DecidableEq

def getQuizStatistics (attempts : List QuizAttempt) (passingScore : Option ℕ) :
    QuizStatistics :=
  if attempts.isEmpty then
    { totalAttempts := 0, uniqueStudents := 0, averageScore := 0, highestScore := 0,
      lowestScore := 0, passRate := 0, averageTimeMinutes := 0 }
  else
    let scores : List ℕ := attempts.map (·.percentage)
    let times : List ℕ := attempts.map (·.timeSpentMinutes)
    let uniqueStudents := (attempts.map (·.student)).eraseDups.length
    let pass := passingScoreOrDefault passingScore
    let passedAttempts := (attempts.filter (fun a => decide (pass ≤ a.percentage))).length
    { totalAttempts := attempts.length,
      uniqueStudents := uniqueStudents,
      averageScore := qRound ((scores.sum : ℚ) / (attempts.length : ℚ)),
      highestScore := listMax scores,
      lowestScore := listMin scores,
      passRate := qRound (((passedAttempts : ℚ) / (attempts.length : ℚ)) * 100),
      averageTimeMinutes := qRound ((times.sum : ℚ) / (times.length : ℚ)) }

/-- Fresh `analytics` subdocument (schema defaults in `Quiz.ts`). -/
def emptyAnalytics : Analytics :=
  { totalAttempts := 0, averageScore := 0, completionRate := 0, averageTimeMinutes := 0 }

/-- The incremental analytics mode: one `Quiz.updateAnalytics` call per
completed submission, as performed by the submit route (`completed = true`,
score = the submitted percentage, time = the submitted minutes). -/
def runIncremental (events : List (ℕ × ℕ)) : Analytics :=
  events.foldl (fun acc e => updateAnalytics acc (e.1 : ℚ) (e.2 : ℚ) true) emptyAnalytics

/-- The incremental-mean recurrence of `updateAnalytics`
(`newAvg = (oldAvg·oldCount + newValue) / (oldCount + 1)`) with the
two-decimal rounding removed, carrying the running `(average, count)` pair.
This is the spec-side reference for comparing the incremental mode with the
full recomputation of `getQuizStatistics`. -/
def avgStep (p : ℚ × ℕ) (s : ℚ) : ℚ × ℕ :=
  ((p.1 * p.2 + s) / (p.2 + 1), p.2 + 1)

def exactIncrementalAvg (ps : List ℚ) : ℚ :=
  (ps.foldl avgStep (0, 0)).1

/-! ### Quiz delete route

`quizPreSave` is the `QuizSchema.pre('save')` hook (`Quiz.ts`, lines
251–268): recompute `totalPoints` and stamp `publishedAt` on the first save
with `status = 'published'` (question-id generation is a no-op here since
every modelled question carries an id).  `deleteDELETE` is
`DELETE /api/quizzes/[id]` (`src/unnamed/part_001`, lines 200–263) from the
point where the token was verified and the user looked up. -/

def quizPreSave (q : Quiz) (now : ℕ) : Quiz :=
  let q := { q with totalPoints := (q.questions.map (·.points)).sum }
  if q.status = .published ∧ q.publishedAt = none then { q with publishedAt := some now } else q

structure DeleteResult where
  httpStatus : ℕ
  message : String
  quizzes : List Quiz
deriving DecidableEq

def deleteDELETE (user : User) (store : List Quiz) (attemptsDb : List QuizAttempt)
    (quizId : String) (now : ℕ) : DeleteResult :=
  if user.role ≠ .teacher then
    { httpStatus := 403, message := "Only teachers can delete quizzes", quizzes := store }
  else
    match store.find? (fun q => decide (q.id = quizId)) with
    | none => { httpStatus := 404, message := "Quiz not found", quizzes := store }
    | some quiz =>
        if quiz.author ≠ user.id then
          { httpStatus := 403, message := "You can only delete your own quizzes",
            quizzes := store }
        else
          let attemptCount := (attemptsDb.filter (fun a => decide (a.quiz = quizId))).length
          if 0 < attemptCount then
            { httpStatus := 200, message := "Quiz archived due to existing student attempts",
              quizzes := store.map (fun q =>
                if q.id = quizId then quizPreSave { q with status := .archived } now else q) }
          else
            { httpStatus := 200, message := "Quiz deleted successfully",
              quizzes := store.filter (fun q => ¬ q.id = quizId) }

/-! ### Helper lemmas -/

theorem attemptPreSave_proj (a : QuizAttempt) (now : ℕ) :
    (attemptPreSave a now).attemptNumber = a.attemptNumber ∧
    (attemptPreSave a now).maxScore = a.maxScore ∧
    (attemptPreSave a now).status = a.status ∧
    (attemptPreSave a now).responses = a.responses ∧
    (attemptPreSave a now).score = a.score := by
  unfold attemptPreSave
  dsimp only
  split <;> split <;> simp_all

theorem attemptPreSave_completedAt_of_some (a : QuizAttempt) (now x : ℕ)
    (h : a.completedAt = some x) : (attemptPreSave a now).completedAt = some x := by
  unfold attemptPreSave
  dsimp only
  split <;> simp_all

theorem attemptPreSave_percentage_of_pos (a : QuizAttempt) (now : ℕ) (h : 0 < a.maxScore) :
    (attemptPreSave a now).percentage = jsRound100 a.score a.maxScore := by
  unfold attemptPreSave
  dsimp only
  rw [if_pos h]
  split <;> simp

theorem jsRound100_le_100 (s m : ℕ) (hm : 0 < m) (hsm : s ≤ m) : jsRound100 s m ≤ 100 := by
  unfold jsRound100
  have h := (Nat.div_lt_iff_lt_mul (by omega : 0 < 2 * m)).mpr (by omega : 200 * s + m < 101 * (2 * m))
  omega

/-! ### C2: start-attempt admission -/

/-- C2: for a student's start-attempt on a published quiz within its due date
and below the attempt limit: an existing in-progress attempt is returned
unchanged and the database is not modified; otherwise exactly one new attempt
is created whose `attemptNumber` is the prior terminal-attempt count plus 1,
whose `maxScore` is the quiz's `totalPoints` at admission time, with status
`in_progress`, empty responses and score 0.  (`1 ≤ quiz.totalPoints` is the
`totalPoints` schema invariant `min: 1` of `Quiz.ts`.) -/
theorem startPOST_admission (u : User) (quiz : Quiz) (db : List QuizAttempt)
    (now : ℕ) (newId : String)
    (hrole : u.role = .student) (hpub : quiz.status = .published)
    (hdue : ∀ d, quiz.dueDate = some d → now ≤ d)
    (hlim : getStudentAttemptCount db u.id quiz.id < quiz.settings.maxAttempts)
    (htp : 1 ≤ quiz.totalPoints) :
    (∀ e, findInProgress db u.id quiz.id = some e →
        startPOST u quiz db now newId = (.resumed e, db)) ∧
    (findInProgress db u.id quiz.id = none →
        ∃ a, startPOST u quiz db now newId = (.created a, db ++ [a]) ∧
          a.attemptNumber = getStudentAttemptCount db u.id quiz.id + 1 ∧
          a.maxScore = quiz.totalPoints ∧ a.status = .in_progress ∧
          a.responses = [] ∧ a.score = 0) := by
  have h1 : ¬ (u.role ≠ Role.student) := by simp [hrole]
  have h2 : ¬ (quiz.status ≠ QuizStatus.published) := by simp [hpub]
  have h3 : (match quiz.dueDate with | some d => decide (d < now) | none => false) = false := by
    cases hd : quiz.dueDate with
    | none => rfl
    | some d => simpa using Nat.not_lt.mpr (hdue d hd)
  have h4 : ¬ (quiz.settings.maxAttempts ≤ getStudentAttemptCount db u.id quiz.id) :=
    Nat.not_le.mpr hlim
  constructor
  · intro e he
    simp only [startPOST, if_neg h1, if_neg h2, h3, Bool.false_eq_true, if_false,
      if_neg h4, he]
  · intro hfp
    simp only [startPOST, if_neg h1, if_neg h2, h3, Bool.false_eq_true, if_false,
      if_neg h4, hfp]
    set A : QuizAttempt :=
      { id := newId, quiz := quiz.id, student := u.id,
        attemptNumber := getStudentAttemptCount db u.id quiz.id + 1,
        status := .in_progress, responses := [], score := 0,
        maxScore := quiz.totalPoints, percentage := 0, timeSpentMinutes := 0,
        startedAt := now, completedAt := none, submittedAt := none } with hA
    have hval : validAttempt A = true := by
      simp only [validAttempt, hA, List.all_nil, Bool.and_true, Bool.and_eq_true,
        decide_eq_true_eq]
      refine ⟨⟨Nat.succ_le_succ (Nat.zero_le _), htp⟩, by omega⟩
    have hsave : saveAttempt A now = some (attemptPreSave A now) := by
      rw [saveAttempt, if_pos hval]
    rw [hsave]
    obtain ⟨hn, hm, hs, hr, hsc⟩ := attemptPreSave_proj A now
    exact ⟨attemptPreSave A now, rfl, hn, hm, hs, by simpa using hr, hsc⟩

def userC2 : User := { id := "s1", role := .student }

def quizC2 : Quiz :=
  { id := "q1", author := "t1", title := "Quiz 1",
    questions := [{ id := "q1a", qtype := .multiple_choice, question := "1+1?",
                    options := ["1", "2"], correctAnswer := .num 1, points := 10 }],
    status := .published,
    settings := { timeLimit := none, maxAttempts := 3, shuffleQuestions := false,
                  shuffleOptions := false, showResultsImmediately := true,
                  allowReview := true, passingScore := none },
    totalPoints := 10, dueDate := none, publishedAt := some 1,
    analytics := emptyAnalytics }

theorem startPOST_admission_witness :
    ∃ a, startPOST userC2 quizC2 [] 5 "a1" = (.created a, [] ++ [a]) ∧
      a.attemptNumber = getStudentAttemptCount [] userC2.id quizC2.id + 1 ∧
      a.maxScore = quizC2.totalPoints ∧ a.status = .in_progress ∧
      a.responses = [] ∧ a.score = 0 :=
  (startPOST_admission userC2 quizC2 [] 5 "a1" rfl rfl (by simp [quizC2])
    (by decide) (by decide)).2 rfl

/-! ### C3: attempt limit -/

/-- C3 (amended): whenever the student's terminal-attempt count for the quiz
has reached `maxAttempts`, no attempt record is ever created; and when in
addition the request passes the earlier guards (requester is a student, quiz
is published and within its due date), the response is exactly the 403
attempt-limit error.  As stated, the claim is false: for a quiz failing an
earlier guard (e.g. an unpublished quiz) the request fails with a different
403 error even though the limit is reached — see the counterexample. -/
theorem startPOST_attempt_limit (u : User) (quiz : Quiz) (db : List QuizAttempt)
    (now : ℕ) (newId : String)
    (hlim : quiz.settings.maxAttempts ≤ getStudentAttemptCount db u.id quiz.id) :
    (startPOST u quiz db now newId).2 = db ∧
    (u.role = .student → quiz.status = .published →
      (∀ d, quiz.dueDate = some d → now ≤ d) →
      startPOST u quiz db now newId =
        (.failed 403 (attemptLimitMsg quiz.settings.maxAttempts), db)) := by
  constructor
  · unfold startPOST
    split
    · rfl
    · split
      · rfl
      · split
        · rfl
        · rw [if_pos hlim]
  · intro hrole hpub hdue
    have h1 : ¬ (u.role ≠ Role.student) := by simp [hrole]
    have h2 : ¬ (quiz.status ≠ QuizStatus.published) := by simp [hpub]
    have h3 : (match quiz.dueDate with | some d => decide (d < now) | none => false) = false := by
      cases hd : quiz.dueDate with
      | none => rfl
      | some d => simpa using Nat.not_lt.mpr (hdue d hd)
    simp only [startPOST, if_neg h1, if_neg h2, h3, Bool.false_eq_true, if_false,
      if_pos hlim]

def userC3 : User := { id := "s1", role := .student }

/-- An unpublished (draft) quiz with `maxAttempts = 1`. -/
def quizC3 : Quiz :=
  { id := "q1", author := "t1", title := "Quiz 1",
    questions := [{ id := "q1a", qtype := .true_false, question := "2 is even?",
                    options := [], correctAnswer := .bool true, points := 5 }],
    status := .draft,
    settings := { timeLimit := none, maxAttempts := 1, shuffleQuestions := false,
                  shuffleOptions := false, showResultsImmediately := true,
                  allowReview := true, passingScore := none },
    totalPoints := 5, dueDate := none, publishedAt := none,
    analytics := emptyAnalytics }

/-- A prior completed attempt of `s1` on `q1`, so that the attempt limit
(`maxAttempts = 1`) is reached. -/
def dbC3 : List QuizAttempt :=
  [{ id := "a1", quiz := "q1", student := "s1", attemptNumber := 1,
     status := .completed, responses := [], score := 0, maxScore := 5,
     percentage := 0, timeSpentMinutes := 1, startedAt := 1,
     completedAt := some 2, submittedAt := some 2 }]

/-- C3 counterexample: with the limit reached on an unpublished quiz, the
request fails with the `Quiz is not available` 403 error, not the
attempt-limit error the claim requires. -/
theorem startPOST_attempt_limit_counterexample :
    quizC3.settings.maxAttempts ≤ getStudentAttemptCount dbC3 userC3.id quizC3.id ∧
    (startPOST userC3 quizC3 dbC3 5 "a2").1 = .failed 403 "Quiz is not available" ∧
    (startPOST userC3 quizC3 dbC3 5 "a2").1 ≠
      .failed 403 (attemptLimitMsg quizC3.settings.maxAttempts) := by
  refine ⟨by decide, by decide, by decide⟩

theorem startPOST_attempt_limit_witness :
    (startPOST userC3 quizC3 dbC3 5 "a2").2 = dbC3 :=
  (startPOST_attempt_limit userC3 quizC3 dbC3 5 "a2" (by decide)).1

/-- Characterization of a successful (HTTP 200) submit: the attempt was
in progress, the analytics call succeeded, validation passed, and the
persisted record is the route-updated attempt transformed by the pre-save
hook. -/
theorem submitPOST_success (quiz : Quiz) (attempt : QuizAttempt)
    (responses : List SubmittedResponse) (t now : ℕ) (ok : Bool)
    (h200 : (submitPOST quiz attempt responses t now ok).httpStatus = 200) :
    attempt.status = .in_progress ∧ ok = true ∧
    validAttempt (submitUpdate quiz attempt responses t now) = true ∧
    (submitPOST quiz attempt responses t now ok).persisted =
      attemptPreSave (submitUpdate quiz attempt responses t now) now := by
  by_cases hnp : attempt.status ≠ .in_progress
  · rw [submitPOST, if_pos hnp] at h200
    simp at h200
  · push_neg at hnp
    have hcond : ¬ attempt.status ≠ AttemptStatus.in_progress := by simp [hnp]
    simp only [submitPOST, if_neg hcond] at h200 ⊢
    rcases hs : saveAttempt (submitUpdate quiz attempt responses t now) now with _ | saved
    · rw [hs] at h200
      simp at h200
    · simp only [hs] at h200 ⊢
      have hvs : validAttempt (submitUpdate quiz attempt responses t now) = true ∧
          saved = attemptPreSave (submitUpdate quiz attempt responses t now) now := by
        rw [saveAttempt] at hs
        split at hs
        · exact ⟨by assumption, by injection hs with h; exact h.symm⟩
        · cases hs
      cases ok
      · simp at h200
      · simpa [hnp, hvs.1] using hvs.2

/-! ### C4: submit only from `in_progress`; `completedAt` set on the transition -/

/-- C4: a submit on an attempt whose status is not `in_progress` fails with
HTTP 400 and leaves the attempt record (score, percentage, status, responses,
`completedAt`) and the quiz untouched; a successful submit from `in_progress`
sets `status = completed` and stamps `completedAt = now` — together these give
that `completedAt` is set exactly once, on the first transition into
`completed`. -/
theorem submit_only_in_progress (quiz : Quiz) (attempt : QuizAttempt)
    (responses : List SubmittedResponse) (t now : ℕ) (ok : Bool) :
    (attempt.status ≠ .in_progress →
      submitPOST quiz attempt responses t now ok =
        { httpStatus := 400, errorMsg := some "Quiz attempt is not in progress",
          persisted := attempt, quizAfter := quiz }) ∧
    ((submitPOST quiz attempt responses t now ok).httpStatus = 200 →
      (submitPOST quiz attempt responses t now ok).persisted.status = .completed ∧
      (submitPOST quiz attempt responses t now ok).persisted.completedAt = some now) := by
  constructor
  · intro h
    rw [submitPOST, if_pos h]
  · intro h200
    obtain ⟨-, -, -, hp⟩ := submitPOST_success quiz attempt responses t now ok h200
    rw [hp]
    constructor
    · rw [(attemptPreSave_proj _ now).2.2.1]
      rfl
    · exact attemptPreSave_completedAt_of_some _ now now rfl

def quizC4 : Quiz :=
  { id := "q1", author := "t1", title := "Quiz 1",
    questions := [{ id := "q1a", qtype := .true_false, question := "2 is even?",
                    options := [], correctAnswer := .bool true, points := 5 }],
    status := .published,
    settings := { timeLimit := none, maxAttempts := 3, shuffleQuestions := false,
                  shuffleOptions := false, showResultsImmediately := true,
                  allowReview := true, passingScore := none },
    totalPoints := 5, dueDate := none, publishedAt := some 1,
    analytics := emptyAnalytics }

/-- An already-completed attempt (all terminal fields populated). -/
def attemptC4 : QuizAttempt :=
  { id := "a1", quiz := "q1", student := "s1", attemptNumber := 1,
    status := .completed, responses := [], score := 5, maxScore := 5,
    percentage := 100, timeSpentMinutes := 1, startedAt := 1,
    completedAt := some 2, submittedAt := some 2 }

theorem submit_only_in_progress_witness :
    submitPOST quizC4 attemptC4 [⟨"q1a", .bool true, 3⟩] 2 9 true =
      { httpStatus := 400, errorMsg := some "Quiz attempt is not in progress",
        persisted := attemptC4, quizAfter := quizC4 } :=
  (submit_only_in_progress quizC4 attemptC4 [⟨"q1a", .bool true, 3⟩] 2 9 true).1 (by decide)

/-! ### C1: what the graded, persisted response list contains -/

/-- C1 (amended): a successful submit persists one graded entry per
*client-submitted* response (in submission order), and any submitted response
whose `questionId` matches no quiz question is graded as incorrect with 0
points.  As stated, the claim is false: the route maps over the submitted
`responses` array, not over the quiz's question list, so questions the client
did not answer get no graded entry at all — see the counterexample. -/
theorem submit_grades_submitted_list (quiz : Quiz) (attempt : QuizAttempt)
    (responses : List SubmittedResponse) (t now : ℕ) (ok : Bool)
    (h200 : (submitPOST quiz attempt responses t now ok).httpStatus = 200) :
    (submitPOST quiz attempt responses t now ok).persisted.responses =
      gradeResponses quiz.questions responses ∧
    (gradeResponses quiz.questions responses).length = responses.length ∧
    (∀ r : SubmittedResponse,
      quiz.questions.find? (fun q => decide (q.id = r.questionId)) = none →
      gradeOne quiz.questions r =
        { questionId := r.questionId, answer := r.answer, isCorrect := false,
          pointsEarned := 0, timeSpentSeconds := r.timeSpentSeconds, attempts := 1 }) := by
  obtain ⟨-, -, -, hp⟩ := submitPOST_success quiz attempt responses t now ok h200
  refine ⟨?_, ?_, ?_⟩
  · rw [hp, (attemptPreSave_proj _ now).2.2.2.1]
    rfl
  · simp [gradeResponses]
  · intro r h
    rw [gradeOne, h]

/-- A published quiz with two 10-point questions (`totalPoints = 20`). -/
def quizC1 : Quiz :=
  { id := "q1", author := "t1", title := "Quiz 1",
    questions := [{ id := "q1a", qtype := .multiple_choice, question := "1+1?",
                    options := ["1", "2"], correctAnswer := .num 0, points := 10 },
                  { id := "q1b", qtype := .multiple_choice, question := "2+2?",
                    options := ["4", "5"], correctAnswer := .num 0, points := 10 }],
    status := .published,
    settings := { timeLimit := none, maxAttempts := 3, shuffleQuestions := false,
                  shuffleOptions := false, showResultsImmediately := true,
                  allowReview := true, passingScore := none },
    totalPoints := 20, dueDate := none, publishedAt := some 1,
    analytics := emptyAnalytics }

def attemptC1 : QuizAttempt :=
  { id := "a1", quiz := "q1", student := "s1", attemptNumber := 1,
    status := .in_progress, responses := [], score := 0, maxScore := 20,
    percentage := 0, timeSpentMinutes := 0, startedAt := 1,
    completedAt := none, submittedAt := none }

/-- C1 counterexample: submitting one response on a two-question quiz
succeeds with a persisted graded list of length 1, not 2 — the unanswered
question `q1b` gets no graded entry. -/
theorem submit_totality_counterexample :
    (submitPOST quizC1 attemptC1 [⟨"q1a", .num 0, 0⟩] 3 9 true).httpStatus = 200 ∧
    quizC1.questions.length = 2 ∧
    (submitPOST quizC1 attemptC1 [⟨"q1a", .num 0, 0⟩] 3 9 true).persisted.responses.length
      = 1 := by
  refine ⟨by decide, by decide, by decide⟩

theorem submit_grades_submitted_list_witness :
    (submitPOST quizC1 attemptC1 [⟨"q1a", .num 0, 0⟩, ⟨"zzz", .num 1, 2⟩] 3 9 true).persisted.responses =
      gradeResponses quizC1.questions [⟨"q1a", .num 0, 0⟩, ⟨"zzz", .num 1, 2⟩] ∧
    (gradeResponses quizC1.questions [⟨"q1a", .num 0, 0⟩, ⟨"zzz", .num 1, 2⟩]).length = 2 ∧
    gradeOne quizC1.questions ⟨"zzz", .num 1, 2⟩ =
      { questionId := "zzz", answer := .num 1, isCorrect := false, pointsEarned := 0,
        timeSpentSeconds := 2, attempts := 1 } := by
  have h := submit_grades_submitted_list quizC1 attemptC1
    [⟨"q1a", .num 0, 0⟩, ⟨"zzz", .num 1, 2⟩] 3 9 true (by decide)
  exact ⟨h.1, h.2.1, h.2.2 ⟨"zzz", .num 1, 2⟩ (by decide)⟩

/-! ### C5: the persisted percentage -/

/-- C5 (amended): after every successful submit the persisted attempt
satisfies `percentage = round(100·score/maxScore)` with `maxScore` the
denominator (the pre-save hook recomputes it from the attempt's snapshot,
overwriting the route's `totalPoints`-based value), `percentage ≥ 0` holds
trivially, and `percentage ≤ 100` holds whenever `score ≤ maxScore`.  As
stated, the claim's unconditional `percentage ≤ 100` is false: when the
quiz's `totalPoints` grew after admission the persisted percentage can exceed
100 — see the counterexample. -/
theorem submit_percentage_formula (quiz : Quiz) (attempt : QuizAttempt)
    (responses : List SubmittedResponse) (t now : ℕ) (ok : Bool)
    (h200 : (submitPOST quiz attempt responses t now ok).httpStatus = 200) :
    (submitPOST quiz attempt responses t now ok).persisted.percentage =
      jsRound100 (submitPOST quiz attempt responses t now ok).persisted.score
        (submitPOST quiz attempt responses t now ok).persisted.maxScore ∧
    ((submitPOST quiz attempt responses t now ok).persisted.score ≤
        (submitPOST quiz attempt responses t now ok).persisted.maxScore →
      (submitPOST quiz attempt responses t now ok).persisted.percentage ≤ 100) := by
  obtain ⟨-, -, hval, hp⟩ := submitPOST_success quiz attempt responses t now ok h200
  have hm : 1 ≤ (submitUpdate quiz attempt responses t now).maxScore := by
    simp only [validAttempt, Bool.and_eq_true, decide_eq_true_eq] at hval
    exact hval.1.1.2
  rw [hp, (attemptPreSave_proj _ now).2.1, (attemptPreSave_proj _ now).2.2.2.2,
    attemptPreSave_percentage_of_pos _ now (by omega)]
  exact ⟨rfl, fun hle => jsRound100_le_100 _ _ (by omega) hle⟩

/-- A quiz whose questions were edited after admission: `totalPoints = 20`,
while the attempt below snapshotted `maxScore = 10`. -/
def quizC5 : Quiz :=
  { id := "q1", author := "t1", title := "Quiz 1",
    questions := [{ id := "q1a", qtype := .multiple_choice, question := "1+1?",
                    options := ["1", "2"], correctAnswer := .num 0, points := 10 },
                  { id := "q1b", qtype := .multiple_choice, question := "2+2?",
                    options := ["4", "5"], correctAnswer := .num 0, points := 10 }],
    status := .published,
    settings := { timeLimit := none, maxAttempts := 3, shuffleQuestions := false,
                  shuffleOptions := false, showResultsImmediately := true,
                  allowReview := true, passingScore := none },
    totalPoints := 20, dueDate := none, publishedAt := some 1,
    analytics := emptyAnalytics }

/-- An attempt admitted when the quiz was worth 10 points. -/
def attemptC5 : QuizAttempt :=
  { id := "a1", quiz := "q1", student := "s1", attemptNumber := 1,
    status := .in_progress, responses := [], score := 0, maxScore := 10,
    percentage := 0, timeSpentMinutes := 0, startedAt := 1,
    completedAt := none, submittedAt := none }

/-- C5 counterexample: both questions answered correctly gives
`score = 20 > maxScore = 10`; the submit succeeds (the route-computed
percentage `round(20/20·100) = 100` passes validation) and the persisted
percentage is `round(20/10·100) = 200 > 100`. -/
theorem submit_percentage_bound_counterexample :
    (submitPOST quizC5 attemptC5 [⟨"q1a", .num 0, 1⟩, ⟨"q1b", .num 0, 1⟩] 3 9 true).httpStatus
      = 200 ∧
    (submitPOST quizC5 attemptC5 [⟨"q1a", .num 0, 1⟩, ⟨"q1b", .num 0, 1⟩] 3 9 true).persisted.percentage
      = 200 := by
  refine ⟨by decide, by decide⟩

theorem submit_percentage_formula_witness :
    (submitPOST quizC5 attemptC5 [⟨"q1a", .num 0, 1⟩] 3 9 true).persisted.percentage =
      jsRound100 (submitPOST quizC5 attemptC5 [⟨"q1a", .num 0, 1⟩] 3 9 true).persisted.score
        (submitPOST quizC5 attemptC5 [⟨"q1a", .num 0, 1⟩] 3 9 true).persisted.maxScore ∧
    (submitPOST quizC5 attemptC5 [⟨"q1a", .num 0, 1⟩] 3 9 true).persisted.percentage ≤ 100 := by
  have h := submit_percentage_formula quizC5 attemptC5 [⟨"q1a", .num 0, 1⟩] 3 9 true (by decide)
  exact ⟨h.1, h.2 (by decide)⟩

/-! ### C7: analytics failure after a successful grade -/

/-- C7 (amended): when grading and persistence succeed but the subsequent
`Quiz.updateAnalytics` call fails, the already-persisted attempt is *not*
rolled back (the stored record is identical to the success case) and the quiz
analytics are unchanged, but — contrary to the claim — the route's catch-all
converts the error into an HTTP 500 `Failed to submit quiz attempt` response
instead of returning the 200 graded result; see the counterexample. -/
theorem analytics_failure_after_submit (quiz : Quiz) (attempt : QuizAttempt)
    (responses : List SubmittedResponse) (t now : ℕ)
    (h200 : (submitPOST quiz attempt responses t now true).httpStatus = 200) :
    (submitPOST quiz attempt responses t now false).persisted =
      (submitPOST quiz attempt responses t now true).persisted ∧
    (submitPOST quiz attempt responses t now false).httpStatus = 500 ∧
    (submitPOST quiz attempt responses t now false).errorMsg =
      some "Failed to submit quiz attempt" ∧
    (submitPOST quiz attempt responses t now false).quizAfter = quiz := by
  obtain ⟨hnp, -, hval, hp⟩ := submitPOST_success quiz attempt responses t now true h200
  have hcond : ¬ attempt.status ≠ AttemptStatus.in_progress := by simp [hnp]
  have hs : saveAttempt (submitUpdate quiz attempt responses t now) now =
      some (attemptPreSave (submitUpdate quiz attempt responses t now) now) := by
    rw [saveAttempt, if_pos hval]
  refine ⟨?_, ?_, ?_, ?_⟩ <;>
    simp [submitPOST, if_neg hcond, hs, hp]

/-- A published single-question quiz matching `attemptC7`. -/
def quizC7 : Quiz :=
  { id := "q1", author := "t1", title := "Quiz 1",
    questions := [{ id := "q1a", qtype := .true_false, question := "2 is even?",
                    options := [], correctAnswer := .bool true, points := 5 }],
    status := .published,
    settings := { timeLimit := none, maxAttempts := 3, shuffleQuestions := false,
                  shuffleOptions := false, showResultsImmediately := true,
                  allowReview := true, passingScore := none },
    totalPoints := 5, dueDate := none, publishedAt := some 1,
    analytics := emptyAnalytics }

def attemptC7 : QuizAttempt :=
  { id := "a1", quiz := "q1", student := "s1", attemptNumber := 1,
    status := .in_progress, responses := [], score := 0, maxScore := 5,
    percentage := 0, timeSpentMinutes := 0, startedAt := 1,
    completedAt := none, submittedAt := none }

/-- C7 counterexample: the same submission succeeds with 200 when the
analytics call succeeds, but when the analytics call fails the response is
HTTP 500 — not the 200 the claim requires — even though the graded attempt
(status `completed`, score 5) was persisted. -/
theorem analytics_failure_counterexample :
    (submitPOST quizC7 attemptC7 [⟨"q1a", .bool true, 2⟩] 3 9 true).httpStatus = 200 ∧
    (submitPOST quizC7 attemptC7 [⟨"q1a", .bool true, 2⟩] 3 9 false).httpStatus = 500 ∧
    (submitPOST quizC7 attemptC7 [⟨"q1a", .bool true, 2⟩] 3 9 false).persisted.status
      = .completed ∧
    (submitPOST quizC7 attemptC7 [⟨"q1a", .bool true, 2⟩] 3 9 false).persisted.score = 5 := by
  refine ⟨by decide, by decide, by decide, by decide⟩

theorem analytics_failure_after_submit_witness :
    (submitPOST quizC7 attemptC7 [⟨"q1a", .bool true, 2⟩] 3 9 false).persisted =
      (submitPOST quizC7 attemptC7 [⟨"q1a", .bool true, 2⟩] 3 9 true).persisted ∧
    (submitPOST quizC7 attemptC7 [⟨"q1a", .bool true, 2⟩] 3 9 false).httpStatus = 500 ∧
    (submitPOST quizC7 attemptC7 [⟨"q1a", .bool true, 2⟩] 3 9 false).errorMsg =
      some "Failed to submit quiz attempt" ∧
    (submitPOST quizC7 attemptC7 [⟨"q1a", .bool true, 2⟩] 3 9 false).quizAfter = quizC7 :=
  analytics_failure_after_submit quizC7 attemptC7 [⟨"q1a", .bool true, 2⟩] 3 9 (by decide)

/-! ### C6: short-answer grading -/

theorem hasSub_iff (s p : List Char) : hasSub s p = true ↔ p <:+: s := by
  induction s with
  | nil => simp [hasSub, List.infix_nil, List.isEmpty_iff]
  | cons c t ih => simp [hasSub, List.infix_cons_iff, List.isPrefixOf_iff_prefix, ih]

theorem shortAnswerCorrect_iff (a b : String) :
    shortAnswerCorrect a b = true ↔
      (normChars a = normChars b ∨ normChars b <:+: normChars a ∨
        normChars a <:+: normChars b) := by
  simp only [shortAnswerCorrect, Bool.or_eq_true, beq_iff_eq, hasSub_iff]
  exact or_assoc

/-- C6: for a `short_answer` question, the grader marks the response correct
iff the whitespace-trimmed, case-folded submitted string equals the trimmed,
case-folded correct answer or either normalized string is a contiguous
substring of the other; `pointsEarned` is the question's points when correct
and 0 otherwise.  (The Paris examples are discharged in the witness.) -/
theorem short_answer_grading (questions : List Question) (q : Question)
    (r : SubmittedResponse)
    (hfind : questions.find? (fun q' => decide (q'.id = r.questionId)) = some q)
    (hq : q.qtype = .short_answer) :
    ((gradeOne questions r).isCorrect = true ↔
      (normChars (jsToString r.answer) = normChars (jsToString q.correctAnswer) ∨
       normChars (jsToString q.correctAnswer) <:+: normChars (jsToString r.answer) ∨
       normChars (jsToString r.answer) <:+: normChars (jsToString q.correctAnswer))) ∧
    (gradeOne questions r).pointsEarned =
      (if (gradeOne questions r).isCorrect then q.points else 0) := by
  constructor
  · simp only [gradeOne, hfind, hq]
    exact shortAnswerCorrect_iff _ _
  · simp [gradeOne, hfind, hq]

def qParis : Question :=
  { id := "p1", qtype := .short_answer, question := "Capital of France?",
    options := [], correctAnswer := .str "Paris", points := 5 }

theorem short_answer_grading_witness :
    (gradeOne [qParis] ⟨"p1", .str "  paris  ", 4⟩).isCorrect = true ∧
    (gradeOne [qParis] ⟨"p1", .str "  paris  ", 4⟩).pointsEarned = 5 ∧
    (gradeOne [qParis] ⟨"p1", .str "Paris, France", 4⟩).isCorrect = true ∧
    (gradeOne [qParis] ⟨"p1", .str "London", 4⟩).isCorrect = false := by
  have h1 := short_answer_grading [qParis] qParis ⟨"p1", .str "  paris  ", 4⟩ (by decide) rfl
  have h2 := short_answer_grading [qParis] qParis ⟨"p1", .str "Paris, France", 4⟩ (by decide) rfl
  have h3 := short_answer_grading [qParis] qParis ⟨"p1", .str "London", 4⟩ (by decide) rfl
  have e1 : (gradeOne [qParis] ⟨"p1", .str "  paris  ", 4⟩).isCorrect = true :=
    h1.1.mpr (Or.inl (by decide))
  refine ⟨e1, ?_, h2.1.mpr (Or.inr (Or.inl (by decide))), ?_⟩
  · rw [h1.2, e1]
    rfl
  · have hnot : ¬ (normChars "London" = normChars "Paris" ∨
        normChars "Paris" <:+: normChars "London" ∨
        normChars "London" <:+: normChars "Paris") := by decide
    cases hb : (gradeOne [qParis] ⟨"p1", .str "London", 4⟩).isCorrect
    · rfl
    · exact absurd (h3.1.mp hb) hnot

/-! ### C10: strict equality for multiple-choice and true/false grading -/

/-- C10: for `multiple_choice` and `true_false` questions the grader uses
JavaScript `===` (same runtime type and value), so a submitted *string*
answer against a numeric or boolean `correctAnswer` is always graded
incorrect with 0 points — even when the string denotes the correct option
index or boolean. -/
theorem strict_equality_no_coercion (questions : List Question) (q : Question)
    (r : SubmittedResponse)
    (hfind : questions.find? (fun q' => decide (q'.id = r.questionId)) = some q)
    (hty : q.qtype = .multiple_choice ∨ q.qtype = .true_false)
    (hc : (∃ k, q.correctAnswer = .num k) ∨ (∃ b, q.correctAnswer = .bool b))
    (hs : ∃ s, r.answer = .str s) :
    (gradeOne questions r).isCorrect = false ∧
    (gradeOne questions r).pointsEarned = 0 := by
  obtain ⟨s, hsv⟩ := hs
  have hfalse : jsStrictEq r.answer q.correctAnswer = false := by
    rcases hc with ⟨k, hk⟩ | ⟨b, hb⟩
    · rw [hsv, hk]
      rfl
    · rw [hsv, hb]
      rfl
  rcases hty with h | h <;> simp [gradeOne, hfind, h, hfalse]

def qMC : Question :=
  { id := "m1", qtype := .multiple_choice, question := "Pick C",
    options := ["A", "B", "C", "D"], correctAnswer := .num 2, points := 3 }

def qTF : Question :=
  { id := "t1", qtype := .true_false, question := "2 is even?",
    options := [], correctAnswer := .bool true, points := 2 }

theorem strict_equality_no_coercion_witness :
    ((gradeOne [qMC] ⟨"m1", .str "2", 0⟩).isCorrect = false ∧
      (gradeOne [qMC] ⟨"m1", .str "2", 0⟩).pointsEarned = 0) ∧
    ((gradeOne [qTF] ⟨"t1", .str "true", 0⟩).isCorrect = false ∧
      (gradeOne [qTF] ⟨"t1", .str "true", 0⟩).pointsEarned = 0) :=
  ⟨strict_equality_no_coercion [qMC] qMC ⟨"m1", .str "2", 0⟩ (by decide)
      (Or.inl rfl) (Or.inl ⟨2, rfl⟩) ⟨"2", rfl⟩,
   strict_equality_no_coercion [qTF] qTF ⟨"t1", .str "true", 0⟩ (by decide)
      (Or.inr rfl) (Or.inr ⟨true, rfl⟩) ⟨"true", rfl⟩⟩

/-! ### C8: incremental vs. full average -/

theorem foldl_avgStep (ps : List ℚ) : ∀ (t : ℚ) (n : ℕ), 0 < n →
    ps.foldl avgStep (t / (n : ℚ), n) =
      ((t + ps.sum) / ((n : ℚ) + (ps.length : ℚ)), n + ps.length) := by
  induction ps with
  | nil =>
      intro t n hn
      simp
  | cons s rest ih =>
      intro t n hn
      have hne : (n : ℚ) ≠ 0 := Nat.cast_ne_zero.mpr hn.ne'
      simp only [List.foldl_cons, avgStep]
      rw [div_mul_cancel₀ t hne]
      have hcast : ((n : ℚ) + 1) = ((n + 1 : ℕ) : ℚ) := by push_cast; ring
      rw [hcast, ih (t + s) (n + 1) (Nat.succ_pos n)]
      simp only [Prod.mk.injEq, List.sum_cons, List.length_cons]
      constructor
      · push_cast
        ring_nf
      · omega

/-- The exact incremental mean (the `updateAnalytics` recurrence without its
two-decimal rounding) equals the arithmetic mean computed by a full scan. -/
theorem exactIncrementalAvg_eq_mean (ps : List ℚ) (h : ps ≠ []) :
    exactIncrementalAvg ps = ps.sum / (ps.length : ℚ) := by
  cases ps with
  | nil => exact absurd rfl h
  | cons s rest =>
      unfold exactIncrementalAvg
      simp only [List.foldl_cons, avgStep]
      have h0 : ((0 : ℚ) * ((0 : ℕ) : ℚ) + s) / (((0 : ℕ) : ℚ) + 1) = s / ((1 : ℕ) : ℚ) := by
        push_cast
        ring
      rw [h0, foldl_avgStep rest s 1 Nat.one_pos]
      simp only [List.sum_cons, List.length_cons]
      push_cast
      ring_nf

/-- C8 (amended): both analytics modes compute the mean of per-attempt
percentage (not a pooled score/maxScore ratio): the exact incremental
recurrence agrees with the full-scan mean, and `getQuizStatistics` computes
`Math.round` of exactly that mean.  As stated, the claim is false because the
two implementations round differently — `updateAnalytics` rounds the running
average to two decimal places at every step while `getQuizStatistics` rounds
the mean to the nearest integer — so the stored values can differ; see the
counterexample. -/
theorem incremental_and_full_average_agree (ps : List ℕ) (hne : ps ≠ []) :
    exactIncrementalAvg (ps.map (fun (n : ℕ) => (n : ℚ))) = ((ps.sum : ℚ) / (ps.length : ℚ)) ∧
    ∀ (attempts : List QuizAttempt) (pass : Option ℕ),
      attempts.map (·.percentage) = ps →
      (getQuizStatistics attempts pass).averageScore =
        qRound ((ps.sum : ℚ) / (ps.length : ℚ)) := by
  have hmapne : ps.map (fun (n : ℕ) => (n : ℚ)) ≠ [] := by
    intro h
    exact hne (List.map_eq_nil_iff.mp h)
  constructor
  · rw [exactIncrementalAvg_eq_mean _ hmapne, List.length_map]
    congr 1
    exact (Nat.cast_list_sum ps).symm
  · intro attempts pass hmap
    have hlen : attempts.length = ps.length := by
      rw [← hmap, List.length_map]
    have hne' : ¬ attempts.isEmpty = true := by
      rcases attempts with _ | ⟨a, rest⟩
      · rw [← hmap] at hne
        exact absurd rfl hne
      · simp
    unfold getQuizStatistics
    rw [if_neg hne']
    dsimp only
    rw [hmap, hlen]

def attemptC8a : QuizAttempt :=
  { id := "a1", quiz := "q1", student := "s1", attemptNumber := 1,
    status := .completed, responses := [], score := 10, maxScore := 20,
    percentage := 50, timeSpentMinutes := 10, startedAt := 1,
    completedAt := some 2, submittedAt := some 2 }

def attemptC8b : QuizAttempt :=
  { id := "a2", quiz := "q1", student := "s2", attemptNumber := 1,
    status := .completed, responses := [], score := 51, maxScore := 100,
    percentage := 51, timeSpentMinutes := 10, startedAt := 1,
    completedAt := some 2, submittedAt := some 2 }

/-- C8 counterexample: for the completed-attempt sequence with percentages
50 and 51 (10 minutes each), the incremental mode stores
`averageScore = 50.5` (two-decimal rounding) while the full recomputation
returns `round(50.5) = 51`: the two modes disagree. -/
theorem average_score_modes_counterexample :
    [attemptC8a, attemptC8b].map (·.percentage) = [50, 51] ∧
    (runIncremental [(50, 10), (51, 10)]).averageScore = 101 / 2 ∧
    ((getQuizStatistics [attemptC8a, attemptC8b] none).averageScore : ℚ) = 51 ∧
    (runIncremental [(50, 10), (51, 10)]).averageScore ≠
      ((getQuizStatistics [attemptC8a, attemptC8b] none).averageScore : ℚ) := by
  have h1 : (runIncremental [(50, 10), (51, 10)]).averageScore = 101 / 2 := by
    simp only [runIncremental, List.foldl_cons, List.foldl_nil, updateAnalytics,
      emptyAnalytics, round2, qRound_eq_intFloor]
    norm_num
  have h2 : ((getQuizStatistics [attemptC8a, attemptC8b] none).averageScore : ℚ) = 51 := by
    simp only [getQuizStatistics, attemptC8a, attemptC8b, List.isEmpty_cons,
      List.map_cons, List.map_nil, List.sum_cons, List.sum_nil, List.length_cons,
      List.length_nil, qRound_eq_intFloor]
    norm_num
  refine ⟨by decide, h1, h2, ?_⟩
  rw [h1, h2]
  norm_num

theorem incremental_and_full_average_agree_witness :
    exactIncrementalAvg (([80, 60] : List ℕ).map (fun (n : ℕ) => (n : ℚ))) =
      ((([80, 60] : List ℕ).sum : ℚ) / ((([80, 60] : List ℕ).length : ℕ) : ℚ)) ∧
    (getQuizStatistics [attemptC8a, attemptC8b] none).averageScore =
      qRound ((([50, 51] : List ℕ).sum : ℚ) / ((([50, 51] : List ℕ).length : ℕ) : ℚ)) :=
  ⟨(incremental_and_full_average_agree [80, 60] (by decide)).1,
   (incremental_and_full_average_agree [50, 51] (by decide)).2
     [attemptC8a, attemptC8b] none (by decide)⟩

/-! ### C9: quiz delete policy -/

theorem quizPreSave_id (q : Quiz) (now : ℕ) : (quizPreSave q now).id = q.id := by
  unfold quizPreSave
  dsimp only
  split <;> rfl

theorem quizPreSave_archived_status (q : Quiz) (now : ℕ) :
    (quizPreSave { q with status := .archived } now).status = .archived := by
  unfold quizPreSave
  dsimp only
  split <;> simp_all

theorem find?_map_archive (store : List Quiz) (quizId : String) (quiz : Quiz) (now : ℕ)
    (h : store.find? (fun q => decide (q.id = quizId)) = some quiz) :
    (store.map (fun q =>
        if q.id = quizId then quizPreSave { q with status := .archived } now else q)).find?
        (fun q => decide (q.id = quizId)) =
      some (quizPreSave { quiz with status := .archived } now) := by
  induction store with
  | nil => simp at h
  | cons hd tl ih =>
      by_cases hhd : hd.id = quizId
      · rw [List.find?_cons_of_pos _ (by simp [hhd])] at h
        injection h with h
        subst h
        simp only [List.map_cons, if_pos hhd]
        rw [List.find?_cons_of_pos _ (by simp [quizPreSave_id, hhd])]
      · rw [List.find?_cons_of_neg _ (by simp [hhd])] at h
        simp only [List.map_cons, if_neg hhd]
        rw [List.find?_cons_of_neg _ (by simp [hhd])]
        exact ih h

theorem find?_filter_ne (store : List Quiz) (quizId : String) :
    (store.filter (fun q => ¬ q.id = quizId)).find?
      (fun q => decide (q.id = quizId)) = none := by
  rw [List.find?_eq_none]
  intro x hx
  have hmem := List.of_mem_filter hx
  simp at hmem ⊢
  exact hmem

/-- C9: for a quiz owned by the requesting teacher, DELETE with zero existing
attempts removes the quiz record from the store (it is no longer
retrievable); DELETE with at least one attempt (in any status — the count is
over all attempts of the quiz) instead stores the quiz with status
`archived`, keeps it retrievable, and deletes nothing (store length is
unchanged). -/
theorem delete_quiz_policy (u : User) (store : List Quiz) (attemptsDb : List QuizAttempt)
    (quizId : String) (now : ℕ) (quiz : Quiz)
    (hrole : u.role = .teacher)
    (hfind : store.find? (fun q => decide (q.id = quizId)) = some quiz)
    (hauth : quiz.author = u.id) :
    ((attemptsDb.filter (fun a => decide (a.quiz = quizId))).length = 0 →
      (deleteDELETE u store attemptsDb quizId now).httpStatus = 200 ∧
      (deleteDELETE u store attemptsDb quizId now).quizzes =
        store.filter (fun q => ¬ q.id = quizId) ∧
      (deleteDELETE u store attemptsDb quizId now).quizzes.find?
        (fun q => decide (q.id = quizId)) = none) ∧
    (0 < (attemptsDb.filter (fun a => decide (a.quiz = quizId))).length →
      (deleteDELETE u store attemptsDb quizId now).httpStatus = 200 ∧
      (deleteDELETE u store attemptsDb quizId now).quizzes.find?
        (fun q => decide (q.id = quizId)) =
        some (quizPreSave { quiz with status := .archived } now) ∧
      (quizPreSave { quiz with status := .archived } now).status = .archived ∧
      (deleteDELETE u store attemptsDb quizId now).quizzes.length = store.length) := by
  have hcond : ¬ u.role ≠ Role.teacher := by simp [hrole]
  have hauth' : ¬ quiz.author ≠ u.id := by simp [hauth]
  constructor
  · intro hz
    simp only [deleteDELETE, if_neg hcond, hfind, if_neg hauth', hz]
    norm_num
  · intro hpos
    simp only [deleteDELETE, if_neg hcond, hfind, if_neg hauth', if_pos hpos]
    exact ⟨trivial, find?_map_archive store quizId quiz now hfind,
      quizPreSave_archived_status quiz now, by simp⟩

def teacherC9 : User := { id := "t1", role := .teacher }

def quizC9 : Quiz :=
  { id := "q1", author := "t1", title := "Quiz 1",
    questions := [{ id := "q1a", qtype := .true_false, question := "2 is even?",
                    options := [], correctAnswer := .bool true, points := 5 }],
    status := .published,
    settings := { timeLimit := none, maxAttempts := 3, shuffleQuestions := false,
                  shuffleOptions := false, showResultsImmediately := true,
                  allowReview := true, passingScore := none },
    totalPoints := 5, dueDate := none, publishedAt := some 1,
    analytics := emptyAnalytics }

/-- One (in-progress) attempt on `q1`, enough to block deletion. -/
def dbC9 : List QuizAttempt :=
  [{ id := "a1", quiz := "q1", student := "s1", attemptNumber := 1,
     status := .in_progress, responses := [], score := 0, maxScore := 5,
     percentage := 0, timeSpentMinutes := 0, startedAt := 1,
     completedAt := none, submittedAt := none }]

theorem delete_quiz_policy_witness :
    (deleteDELETE teacherC9 [quizC9] [] "q1" 7).quizzes.find?
        (fun q => decide (q.id = "q1")) = none ∧
    (deleteDELETE teacherC9 [quizC9] dbC9 "q1" 7).quizzes.find?
        (fun q => decide (q.id = "q1")) =
      some (quizPreSave { quizC9 with status := .archived } 7) :=
  ⟨((delete_quiz_policy teacherC9 [quizC9] [] "q1" 7 quizC9 rfl (by decide) rfl).1
      (by decide)).2.2,
   ((delete_quiz_policy teacherC9 [quizC9] dbC9 "q1" 7 quizC9 rfl (by decide) rfl).2
      (by decide)).2.1⟩

end SchoolConnect
